import Mathlib

/-
Formal model of the host-side orchestration core of ACE-Ollama-GUI
(src/main.js): input validators, the streaming decoders for chat and
download progress, the buffered metadata handlers, fine-tuning exit-code
mapping, and the construction of dynamically synthesized worker commands.

Conventions of the embedding:
* JavaScript values crossing the bridge are modelled by `JSInput`
  (a string, or any non-string value).
* Strings are modelled as Lean `String`s (lists of characters); `length`
  counts characters.  All inputs used in concrete evaluations are ASCII,
  where this coincides with JavaScript's UTF-16 code-unit length.
* `JSON.parse` is modelled as an abstract parameter
  `String → Option _` (some = parses to that value, none = throws).
* The file system is modelled as a function `String → Option Nat`
  (none = path does not exist, some n = exists with size n bytes), and
  `path.normalize` as an abstract parameter `String → String`.
* A promise handler is modelled as a state machine over `ProcEvent`s
  (stdout data, stderr data, close with exit code, spawn error, timer
  firing); the first settlement (resolve or reject) sticks, as for a
  JavaScript Promise.  Integer-valued JavaScript numbers are modelled
  as `Int`.
-/

namespace ACE

/-- A value received over IPC: either a JavaScript string or any
non-string value (object, number, null, undefined, ...). -/
inductive JSInput where
  | jstr : String → JSInput
  | nonString : JSInput
deriving DecidableEq

/-- `main.js:284` helper — the characters removed by
`validateAndSanitizeInput`'s regex `/[\x00-\x08\x0B\x0C\x0E-\x1F\x7F]/g`. -/
def isStrippedChar (c : Char) : Bool :=
  decide (c.toNat ≤ 8) || c.toNat == 11 || c.toNat == 12 ||
    (decide (14 ≤ c.toNat) && decide (c.toNat ≤ 31)) || c.toNat == 127

/-- `main.js:284-295` `validateAndSanitizeInput(input, maxLength)`:
reject non-strings, reject strings longer than `maxLength` with a
length-specific message, otherwise delete the characters matched by the
stripping regex. -/
def validateAndSanitizeInput (input : JSInput) (maxLength : Nat) : Except String String :=
  match input with
  | .nonString => .error "Input must be a string"
  | .jstr s =>
    if s.length > maxLength then
      .error ("Input too long. Maximum length is " ++ toString maxLength ++ " characters")
    else
      .ok (String.mk (s.data.filter (fun c => !isStrippedChar c)))

/-- The length ceiling used for chat queries (`main.js:487`). -/
def chatQueryMaxLength : Nat := 50000

/-- The default length ceiling for generic text (`main.js:284`). -/
def genericTextMaxLength : Nat := 10000

/-- `main.js:324-342` helper — the character class of the model-name
regex `/^[a-zA-Z0-9\-_:.]+$/`. -/
def isModelNameChar (c : Char) : Bool :=
  (decide (97 ≤ c.toNat) && decide (c.toNat ≤ 122)) ||
  (decide (65 ≤ c.toNat) && decide (c.toNat ≤ 90)) ||
  (decide (48 ≤ c.toNat) && decide (c.toNat ≤ 57)) ||
  c.toNat == 45 || c.toNat == 95 || c.toNat == 58 || c.toNat == 46

/-- `String.prototype.trim` modelled over the character list: strip
leading and trailing whitespace.  (The handlers only ever test whether
the trimmed string is empty, i.e. whether the text is entirely
whitespace.) -/
def jsTrim (s : String) : String :=
  String.mk (((s.data.dropWhile Char.isWhitespace).reverse.dropWhile Char.isWhitespace).reverse)

/-- `main.js:324-342` `validateModelName(modelName)`: reject falsy or
non-string values, reject strings with a character outside the allowed
class, otherwise return the (trimmed) name.  The empty string is falsy in
JavaScript, so it takes the first rejection branch. -/
def validateModelName (modelName : JSInput) : Except String String :=
  match modelName with
  | .nonString => .error "Invalid model name"
  | .jstr s =>
    if s = "" then .error "Invalid model name"
    else if s.data.all isModelNameChar then .ok (jsTrim s)
    else .error "Invalid model name format"

/-- Substring test on character lists, used to model JavaScript's
`String.prototype.includes`. -/
def containsSub (sub : List Char) : List Char → Bool
  | [] => sub.isEmpty
  | c :: cs => sub.isPrefixOf (c :: cs) || containsSub sub cs

/-- `s.includes(sub)` — `sub` occurs contiguously inside `s`. -/
def strContains (s sub : String) : Bool := containsSub sub.data s.data

/-- `main.js:297-322` `validateAndSanitizeFilePath(filePath)`:
reject falsy/non-string values; normalize the path; reject when the
normalized form contains `..` or `~`; reject when the target does not
exist; reject when its size exceeds 100 MB; otherwise return the
normalized path.  `normalize` models `path.normalize` and `fileSize`
models the file system (`fs.existsSync` / `fs.statSync`). -/
def validateAndSanitizeFilePath (normalize : String → String)
    (fileSize : String → Option Nat) (filePath : JSInput) : Except String String :=
  match filePath with
  | .nonString => .error "Invalid file path"
  | .jstr s =>
    if s = "" then .error "Invalid file path"
    else
      let normalizedPath := normalize s
      if strContains normalizedPath ".." || strContains normalizedPath "~" then
        .error "Invalid file path"
      else
        match fileSize normalizedPath with
        | none => .error "File does not exist"
        | some size =>
          if size > 100 * 1024 * 1024 then
            .error "File too large. Maximum size is 100MB"
          else
            .ok normalizedPath

/-- The spec's words for the free-text stripping clause: a control
character other than newline and tab (ASCII control = below 0x20, plus
DEL). -/
def isControlOtherThanNewlineTab (c : Char) : Bool :=
  (decide (c.toNat < 32) || c.toNat == 127) && !(c.toNat == 10) && !(c.toNat == 9)

/-- The amended stripping clause: a control character other than
newline, tab and carriage return. -/
def isControlOtherThanNewlineTabCR (c : Char) : Bool :=
  (decide (c.toNat < 32) || c.toNat == 127) && !(c.toNat == 10) &&
    !(c.toNat == 9) && !(c.toNat == 13)

/-- The settlement of a JavaScript Promise: fulfilled with a value, or
rejected with an error message. -/
inductive Outcome (α : Type) where
  | resolve : α → Outcome α
  | reject : String → Outcome α
deriving DecidableEq

/-- An event observed by a handler supervising one worker process:
a chunk on stdout, a chunk on stderr, the exit of the process with an
exit code, a spawn failure with an error message, or the handler's
timeout timer firing. -/
inductive ProcEvent where
  | stdout : String → ProcEvent
  | stderrData : String → ProcEvent
  | close : Int → ProcEvent
  | spawnFailed : String → ProcEvent
  | timeoutFired : ProcEvent
deriving DecidableEq

/-- One decoded download-progress record: the fields `progress`,
`status` and `stage` a JSON line may carry (`none` = field absent). -/
structure ProgressFrame where
  progress : Option Int
  status : Option String
  stage : Option String
deriving DecidableEq

/-- The state of one `download-model` operation: the frames delivered to
the renderer via `download-progress`, the promise settlement (if any),
and whether the worker was killed. -/
structure DownloadState where
  sent : List ProgressFrame
  settled : Option (Outcome ProgressFrame)
  killed : Bool
deriving DecidableEq

def downloadInit : DownloadState := { sent := [], settled := none, killed := false }

/-- First settlement wins: a resolve/reject on an already settled
promise is a no-op. -/
def settleDownload (st : DownloadState) (o : Outcome ProgressFrame) : DownloadState :=
  match st.settled with
  | some _ => st
  | none => { st with settled := some o }

/-- The synthetic frame `main.js:605-609` sends when a line fails to
parse: `{ status: "Error parsing progress data", progress: 0, stage: "error" }`. -/
def syntheticErrorFrame : ProgressFrame :=
  { progress := some 0, status := some "Error parsing progress data", stage := some "error" }

/-- `main.js:598` — the condition under which a decoded frame resolves
the download promise:
`progress.progress === 100 || progress.status === "Cannot be installed" || progress.stage === "complete"`. -/
def isTerminalDownloadFrame (f : ProgressFrame) : Bool :=
  f.progress == some 100 || f.status == some "Cannot be installed" ||
    f.stage == some "complete"

/-- `main.js:592-612` — processing of one line of download-worker
stdout: a line whose trim is empty is skipped; a line that parses is
sent to the renderer and, when terminal, resolves the promise; a line
that fails to parse is replaced by `syntheticErrorFrame` on the
`download-progress` channel and decoding continues.  `parseFrame`
models `JSON.parse` on one line. -/
def processRawLine (parseFrame : String → Option ProgressFrame)
    (st : DownloadState) (line : String) : DownloadState :=
  if jsTrim line = "" then st
  else
    match parseFrame line with
    | some f =>
      let st1 := { st with sent := st.sent ++ [f] }
      if isTerminalDownloadFrame f then settleDownload st1 (.resolve f) else st1
    | none => { st with sent := st.sent ++ [syntheticErrorFrame] }

/-- The stdout handler applied to a sequence of lines in order. -/
def processStdoutLines (parseFrame : String → Option ProgressFrame)
    (st : DownloadState) (lines : List String) : DownloadState :=
  lines.foldl (processRawLine parseFrame) st

/-- The whole `download-model` handler (`main.js:566-635`) as a step
function over process events: stdout chunks are split on newlines and
decoded line by line; a non-zero exit rejects; a spawn error rejects;
the 30-minute timer kills the worker and rejects. -/
def downloadStep (parseFrame : String → Option ProgressFrame)
    (st : DownloadState) : ProcEvent → DownloadState
  | .stdout chunk => processStdoutLines parseFrame st (chunk.splitOn "\n")
  | .stderrData _ => st
  | .close code =>
    if code ≠ 0 then
      settleDownload st (.reject ("Download process exited with code " ++ toString code))
    else st
  | .spawnFailed msg =>
    settleDownload st (.reject ("Failed to start download process: " ++ msg))
  | .timeoutFired =>
    settleDownload { st with killed := true }
      (.reject "Download timeout - process took too long")

def runDownload (parseFrame : String → Option ProgressFrame)
    (evs : List ProcEvent) : DownloadState :=
  evs.foldl (downloadStep parseFrame) downloadInit

/-- The evolution of the download promise's settlement depends only on
the previous settlement and the line (helper for congruence proofs). -/
def settledNext (parseFrame : String → Option ProgressFrame)
    (s : Option (Outcome ProgressFrame)) (line : String) : Option (Outcome ProgressFrame) :=
  if jsTrim line = "" then s
  else
    match parseFrame line with
    | some f =>
      if isTerminalDownloadFrame f then
        match s with
        | some o => some o
        | none => some (.resolve f)
      else s
    | none => s

/-- The state of one `submit-ai-query` operation (`main.js:484-563`):
the accumulated full response, the chunks forwarded on the `ai-stream`
channel in order, the promise settlement, and whether the worker was
killed. -/
structure QueryState where
  fullResponse : String
  sentChunks : List String
  settled : Option (Outcome String)
  killed : Bool
deriving DecidableEq

def queryInit : QueryState :=
  { fullResponse := "", sentChunks := [], settled := none, killed := false }

def settleQuery (st : QueryState) (o : Outcome String) : QueryState :=
  match st.settled with
  | some _ => st
  | none => { st with settled := some o }

/-- The `submit-ai-query` handler as a step function over process
events: each stdout chunk is appended to `fullResponse` and forwarded
unmodified; exit code 0 resolves with the accumulated buffer; a
non-zero exit, a spawn error, or the 15-minute timer (which also kills
the worker) rejects. -/
def queryStep (st : QueryState) : ProcEvent → QueryState
  | .stdout text =>
    { st with fullResponse := st.fullResponse ++ text, sentChunks := st.sentChunks ++ [text] }
  | .stderrData _ => st
  | .close code =>
    if code = 0 then settleQuery st (.resolve st.fullResponse)
    else settleQuery st (.reject ("Python process exited with code " ++ toString code))
  | .spawnFailed msg =>
    settleQuery st (.reject ("Failed to start Python process: " ++ msg))
  | .timeoutFired =>
    settleQuery { st with killed := true }
      (.reject "Request timeout - process took too long. Try asking a more specific question or breaking it into smaller parts.")

def runQuery (evs : List ProcEvent) : QueryState := evs.foldl queryStep queryInit

/-- Concatenation of stream chunks in arrival order. -/
def concatChunks (l : List String) : String := l.foldl (fun a b => a ++ b) ""

def isCloseEvent : ProcEvent → Bool
  | .close _ => true
  | _ => false

/-- A minimal JSON value model for the buffered (single-result)
handlers. -/
inductive JVal where
  | jnull : JVal
  | jbool : Bool → JVal
  | jnum : Int → JVal
  | jstr : String → JVal
  | jarr : List JVal → JVal
  | jobj : List (String × JVal) → JVal

/-- State of a buffered handler (`get-ai-options`, `get-model-info`,
`delete-model`, `export-fine-tuned-model`): the accumulated stdout
buffer, the settlement, and whether the worker was killed. -/
structure BufferState where
  data : String
  settled : Option (Outcome JVal)
  killed : Bool

def bufferInit : BufferState := { data := "", settled := none, killed := false }

def settleBuffer (st : BufferState) (o : Outcome JVal) : BufferState :=
  match st.settled with
  | some _ => st
  | none => { st with settled := some o }

/-- Common shape of the buffered handlers: stdout accumulates into the
buffer; the close handler resolves `closeResult exitCode buffer`; the
timeout kills the worker and resolves `timeoutResult`; a spawn error
resolves `spawnFailResult msg`.  None of these handlers ever rejects. -/
def bufferedHandlerStep (closeResult : Int → String → JVal) (timeoutResult : JVal)
    (spawnFailResult : String → JVal) (st : BufferState) : ProcEvent → BufferState
  | .stdout chunk => { st with data := st.data ++ chunk }
  | .stderrData _ => st
  | .close code => settleBuffer st (.resolve (closeResult code st.data))
  | .spawnFailed msg => settleBuffer st (.resolve (spawnFailResult msg))
  | .timeoutFired => settleBuffer { st with killed := true } (.resolve timeoutResult)

/-- The fallback value of `get-ai-options`: the one-element list
`["No models found"]`. -/
def noModelsFallback : JVal := .jarr [.jstr "No models found"]

/-- `main.js:661-676` — the `get-ai-options` close handler ignores the
exit code: empty output or unparseable output falls back to
`["No models found"]`, otherwise the parsed value is resolved. -/
def getAiOptionsCloseResult (parseJson : String → Option JVal) (_code : Int)
    (data : String) : JVal :=
  if jsTrim data = "" then noModelsFallback
  else
    match parseJson data with
    | some options => options
    | none => noModelsFallback

def getAiOptionsStep (parseJson : String → Option JVal) :
    BufferState → ProcEvent → BufferState :=
  bufferedHandlerStep (getAiOptionsCloseResult parseJson) noModelsFallback
    (fun _ => noModelsFallback)

def runGetAiOptions (parseJson : String → Option JVal) (evs : List ProcEvent) : BufferState :=
  evs.foldl (getAiOptionsStep parseJson) bufferInit

/-- `main.js:710-723` — the `get-model-info` close handler: empty or
unparseable output falls back to the empty list `[]`. -/
def getModelInfoCloseResult (parseJson : String → Option JVal) (_code : Int)
    (data : String) : JVal :=
  if jsTrim data = "" then .jarr []
  else
    match parseJson data with
    | some info => info
    | none => .jarr []

def getModelInfoStep (parseJson : String → Option JVal) :
    BufferState → ProcEvent → BufferState :=
  bufferedHandlerStep (getModelInfoCloseResult parseJson) (.jarr []) (fun _ => .jarr [])

def runGetModelInfo (parseJson : String → Option JVal) (evs : List ProcEvent) : BufferState :=
  evs.foldl (getModelInfoStep parseJson) bufferInit

/-- The `{ status: 'error', message: msg }` objects `delete-model`
resolves on every failure path. -/
def deleteErrorResult (msg : String) : JVal :=
  .jobj [("status", .jstr "error"), ("message", .jstr msg)]

/-- `main.js:758-771` — the `delete-model` close handler: empty output,
or output that fails to parse, resolves a status-error object. -/
def deleteModelCloseResult (parseJson : String → Option JVal) (_code : Int)
    (data : String) : JVal :=
  if jsTrim data = "" then deleteErrorResult "No response from delete operation"
  else
    match parseJson data with
    | some result => result
    | none => deleteErrorResult "Failed to parse delete result"

def deleteModelStep (parseJson : String → Option JVal) :
    BufferState → ProcEvent → BufferState :=
  bufferedHandlerStep (deleteModelCloseResult parseJson)
    (deleteErrorResult "Delete operation timed out")
    (fun _ => deleteErrorResult "Failed to start delete operation")

/-- The whole `delete-model` handler (`main.js:734-783`): the model name
is validated first, inside the promise's try block, and a validation
failure resolves (not rejects) a status-error object. -/
def runDeleteModel (parseJson : String → Option JVal) (modelName : JSInput)
    (evs : List ProcEvent) : BufferState :=
  match validateModelName modelName with
  | .error msg => settleBuffer bufferInit (.resolve (deleteErrorResult msg))
  | .ok _ => evs.foldl (deleteModelStep parseJson) bufferInit

/-- The `{ success: false, error: msg }` objects `export-fine-tuned-model`
resolves on every failure path. -/
def exportErrorResult (msg : String) : JVal :=
  .jobj [("success", .jbool false), ("error", .jstr msg)]

/-- `main.js:1025-1038` — the `export-fine-tuned-model` close handler:
only exit code 0 with non-blank parseable output resolves the parsed
value; every failure resolves a `success: false` object. -/
def exportCloseResult (parseJson : String → Option JVal) (code : Int)
    (data : String) : JVal :=
  if code = 0 ∧ jsTrim data ≠ "" then
    match parseJson data with
    | some result => result
    | none => exportErrorResult "Failed to parse export result"
  else exportErrorResult "Export failed"

def exportModelStep (parseJson : String → Option JVal) :
    BufferState → ProcEvent → BufferState :=
  bufferedHandlerStep (exportCloseResult parseJson) (exportErrorResult "Export timeout")
    (fun msg => exportErrorResult ("Failed to start export: " ++ msg))

def runExportModel (parseJson : String → Option JVal) (evs : List ProcEvent) : BufferState :=
  evs.foldl (exportModelStep parseJson) bufferInit

/-- `main.js:947-971` — the `start-fine-tuning` close handler: exit
code 0 with non-blank output resolves the parsed result (a parse
failure rejects with a parse-specific message); any other exit rejects
with a message selected by the exit code, codes 1-4 being reserved for
specific failure categories. -/
def fineTuningCloseResult (parseJson : String → Option JVal) (code : Int)
    (data : String) : Outcome JVal :=
  if code = 0 ∧ jsTrim data ≠ "" then
    match parseJson data with
    | some result => .resolve result
    | none => .reject "Failed to parse fine-tuning result - check the console for details"
  else
    .reject
      (if code = 1 then "Model preparation failed - check if the base model is available in Ollama"
       else if code = 2 then "Training data validation failed - check your uploaded files"
       else if code = 3 then "System requirements not met - insufficient RAM or storage"
       else if code = 4 then "Network error - check your internet connection"
       else "Fine-tuning start failed")

/-- `main.js:801-845` — the `check-system-requirements` handler as a
step function over process events: exit code 0 with non-blank parseable
output resolves the parsed result; a parse failure rejects with the
parse error's own message (modelled by `parseErrMsg`, the message of
the exception `JSON.parse` throws on that buffer); any other exit
rejects a fixed message; a spawn error rejects; the 10-second timer
kills the worker and rejects. -/
def checkSystemRequirementsStep (parseJson : String → Option JVal)
    (parseErrMsg : String → String) (st : BufferState) : ProcEvent → BufferState
  | .stdout chunk => { st with data := st.data ++ chunk }
  | .stderrData _ => st
  | .close code =>
    settleBuffer st
      (if code = 0 ∧ jsTrim st.data ≠ "" then
        match parseJson st.data with
        | some result => .resolve result
        | none => .reject (parseErrMsg st.data)
       else .reject "System requirements check failed")
  | .spawnFailed msg =>
    settleBuffer st (.reject ("Failed to check system requirements: " ++ msg))
  | .timeoutFired =>
    settleBuffer { st with killed := true } (.reject "System requirements check timeout")

/-- `main.js:973-987` — the `start-fine-tuning` spawn-error message:
ENOENT, EACCES and ENOMEM in the error text select specific messages,
anything else falls back to the generic prefix. -/
def startFineTuningSpawnErrorMessage (msg : String) : String :=
  if strContains msg "ENOENT" then "Python script not found - please reinstall the application"
  else if strContains msg "EACCES" then "Permission denied - check file permissions"
  else if strContains msg "ENOMEM" then "Insufficient memory to start fine-tuning process"
  else "Failed to start fine-tuning: " ++ msg

/-- `main.js:848-993` — the `start-fine-tuning` handler's settlement
behavior as a step function over process events.  `timeoutFired` models
the expiry of the graduated warning cascade (`main.js:872-899`): the
10-minute deadline sends a warning event, a 90-second grace extension
sends a final warning, and the last 30-second timer kills the worker
and rejects with the timeout message; the warning events go to the
progress channel and settle nothing, so only the terminal action is
modelled here.  The close handler is `fineTuningCloseResult`
(`main.js:947-971`). -/
def startFineTuningStep (parseJson : String → Option JVal)
    (st : BufferState) : ProcEvent → BufferState
  | .stdout chunk => { st with data := st.data ++ chunk }
  | .stderrData _ => st
  | .close code => settleBuffer st (fineTuningCloseResult parseJson code st.data)
  | .spawnFailed msg => settleBuffer st (.reject (startFineTuningSpawnErrorMessage msg))
  | .timeoutFired =>
    settleBuffer { st with killed := true }
      (.reject "Fine-tuning start timeout - model preparation is taking longer than expected. Please try again or check your internet connection.")

/-- `main.js:1052-1096` — the `get-dashboard-data` handler as a step
function over process events: exit code 0 with non-blank parseable
output resolves the parsed result; a parse failure and any other exit
reject fixed messages; a spawn error rejects; the 10-second timer kills
the worker and rejects. -/
def getDashboardDataStep (parseJson : String → Option JVal)
    (st : BufferState) : ProcEvent → BufferState
  | .stdout chunk => { st with data := st.data ++ chunk }
  | .stderrData _ => st
  | .close code =>
    settleBuffer st
      (if code = 0 ∧ jsTrim st.data ≠ "" then
        match parseJson st.data with
        | some result => .resolve result
        | none => .reject "Failed to parse dashboard data"
       else .reject "Failed to get dashboard data")
  | .spawnFailed msg => settleBuffer st (.reject ("Failed to start dashboard API: " ++ msg))
  | .timeoutFired =>
    settleBuffer { st with killed := true } (.reject "Dashboard data timeout")

/-- `scriptDir.replace(/'/g, "\\'")` — escape single quotes for
embedding in a Python single-quoted string (`main.js:856`, `main.js:1004`). -/
def escapeSingleQuotes (s : String) : String :=
  String.mk (s.data.foldr (fun c acc => if c = '\x27' then '\\' :: c :: acc else c :: acc) [])

/-- `main.js:1001-1009` — the Python program text synthesized by the
`export-fine-tuned-model` handler.  `modelName` is interpolated into it
verbatim; no validator is applied anywhere in the handler. -/
def exportPythonCode (scriptDir modelName : String) : String :=
  "\nimport sys\nimport json\nsys.path.append(\x27" ++ escapeSingleQuotes scriptDir ++
    "\x27)\nfrom fine_tuning import fine_tuning_manager\n\nresult = fine_tuning_manager.export_to_ollama(\x22" ++
    modelName ++ "\x22)\nprint(json.dumps(result))\n      "

/-- The argument list `['-c', code]` passed to the spawned interpreter by
`export-fine-tuned-model`; the spawn is unconditional for every model
name. -/
def exportFineTunedModelSpawnArgs (scriptDir modelName : String) : List String :=
  ["-c", exportPythonCode scriptDir modelName]

def hexDigitChar (n : Nat) : Char :=
  if n < 10 then Char.ofNat (48 + n) else Char.ofNat (87 + n)

/-- `JSON.stringify` escaping for one character of a string value. -/
def jsonEscapeChar (c : Char) : List Char :=
  if c = '\x22' then ['\\', '\x22']
  else if c = '\\' then ['\\', '\\']
  else if c.toNat = 8 then ['\\', 'b']
  else if c.toNat = 9 then ['\\', 't']
  else if c.toNat = 10 then ['\\', 'n']
  else if c.toNat = 12 then ['\\', 'f']
  else if c.toNat = 13 then ['\\', 'r']
  else if c.toNat < 32 then
    ['\\', 'u', '0', '0', hexDigitChar (c.toNat / 16), hexDigitChar (c.toNat % 16)]
  else [c]

/-- A JSON string literal as produced by `JSON.stringify`. -/
def jsonQuote (s : String) : String :=
  String.mk ('\x22' :: s.data.foldr (fun c acc => jsonEscapeChar c ++ acc) ['\x22'])

/-- One entry of the `files` array the renderer sends with
`start-fine-tuning` (field `type` is renamed `ftype`; `type` is a Lean
keyword). -/
structure TrainingFile where
  name : String
  content : String
  size : Nat
  ftype : String

def stringifyTrainingFile (f : TrainingFile) : String :=
  "\x7b" ++ jsonQuote "name" ++ ":" ++ jsonQuote f.name ++ "," ++
    jsonQuote "content" ++ ":" ++ jsonQuote f.content ++ "," ++
    jsonQuote "size" ++ ":" ++ toString f.size ++ "," ++
    jsonQuote "type" ++ ":" ++ jsonQuote f.ftype ++ "\x7d"

/-- The `start-fine-tuning` payload object as sent by the renderer
(ui-manager `startFineTuningProcess`); the numeric fields are modelled
as integers (integer-valued JavaScript numbers serialize as plain
numerals). -/
structure FineTuneArgs where
  baseModel : String
  modelName : String
  learningRate : Int
  epochs : Int
  batchSize : Int
  files : List TrainingFile

/-- `JSON.stringify(args)` on the fine-tuning payload, with the
renderer's insertion order of keys. -/
def stringifyFineTuneArgs (a : FineTuneArgs) : String :=
  "\x7b" ++ jsonQuote "baseModel" ++ ":" ++ jsonQuote a.baseModel ++ "," ++
    jsonQuote "modelName" ++ ":" ++ jsonQuote a.modelName ++ "," ++
    jsonQuote "learningRate" ++ ":" ++ toString a.learningRate ++ "," ++
    jsonQuote "epochs" ++ ":" ++ toString a.epochs ++ "," ++
    jsonQuote "batchSize" ++ ":" ++ toString a.batchSize ++ "," ++
    jsonQuote "files" ++ ":[" ++
    String.intercalate "," (a.files.map stringifyTrainingFile) ++ "]\x7d"

/-- `main.js:853-869` — the Python program text synthesized by the
`start-fine-tuning` handler, with `JSON.stringify(args)` interpolated
into it; no field of the payload is passed through any validator. -/
def startFineTuningPythonCode (scriptDir : String) (args : FineTuneArgs) : String :=
  "\nimport sys\nimport json\nsys.path.append(\x27" ++ escapeSingleQuotes scriptDir ++
    "\x27)\nfrom fine_tuning import fine_tuning_manager\n\nargs = " ++
    stringifyFineTuneArgs args ++
    "\nresult = fine_tuning_manager.start_fine_tuning(\n    base_model=args[\x27baseModel\x27],\n    model_name=args[\x27modelName\x27],\n    learning_rate=args[\x27learningRate\x27],\n    epochs=args[\x27epochs\x27],\n    batch_size=args[\x27batchSize\x27],\n    files=args[\x27files\x27]\n)\nprint(json.dumps(result))\n      "

/-- The argument list `['-c', code]` passed to the spawned interpreter
by `start-fine-tuning`; the spawn is unconditional for every payload. -/
def startFineTuningSpawnArgs (scriptDir : String) (args : FineTuneArgs) : List String :=
  ["-c", startFineTuningPythonCode scriptDir args]

/-- A frame carrying the failure status `"Cannot be installed"` without
terminal progress or stage (as `download_model.py` reports an
uninstallable model mid-stream). -/
def cannotInstallFrame : ProgressFrame :=
  { progress := some 0, status := some "Cannot be installed", stage := some "downloading" }

/-- A terminal-success frame. -/
def completeFrame : ProgressFrame :=
  { progress := some 100, status := some "Download complete", stage := some "complete" }

/-- A non-terminal mid-download frame. -/
def midFrame : ProgressFrame :=
  { progress := some 50, status := some "Downloading model files", stage := some "downloading" }

lemma isStrippedChar_eq_spec (c : Char) :
    isStrippedChar c = isControlOtherThanNewlineTabCR c := by
  have h : isStrippedChar c = true ↔ isControlOtherThanNewlineTabCR c = true := by
    simp only [isStrippedChar, isControlOtherThanNewlineTabCR, Bool.or_eq_true,
      Bool.and_eq_true, decide_eq_true_eq, beq_iff_eq, Bool.not_eq_true',
      beq_eq_false_iff_ne, ne_eq]
    omega
  cases h1 : isStrippedChar c
  · cases h2 : isControlOtherThanNewlineTabCR c
    · rfl
    · exact absurd (h.mpr h2) (by simp [h1])
  · exact (h.mp h1).symm

/-- Claim C5 counterexample: the carriage-return character (U+000D) is a
control character other than newline and tab, yet `validateAndSanitizeInput`
returns the one-character string `"\r"` unchanged instead of stripping
it, so an in-ceiling input is not returned "unchanged except that
control characters other than newline and tab are stripped". -/
theorem C5_counterexample :
    validateAndSanitizeInput (.jstr "\r") genericTextMaxLength = .ok "\r" ∧
    String.mk ("\r".data.filter (fun c => !isControlOtherThanNewlineTab c)) = "" ∧
    ("\r" : String) ≠ "" := by
  refine ⟨rfl, by decide, by decide⟩

/-- Claim C5 (amended): for every string within the ceiling the
validator accepts it and returns it unchanged except that control
characters other than newline, tab and carriage return are stripped;
for every longer string it rejects with the length-specific reason; for
every non-string input it rejects.  The chat-query ceiling is 50000 and
the generic-text ceiling is 10000. -/
theorem C5_amended (maxLength : Nat) (s : String) :
    (s.length ≤ maxLength →
      validateAndSanitizeInput (.jstr s) maxLength =
        .ok (String.mk (s.data.filter (fun c => !isControlOtherThanNewlineTabCR c)))) ∧
    (s.length > maxLength →
      validateAndSanitizeInput (.jstr s) maxLength =
        .error ("Input too long. Maximum length is " ++ toString maxLength ++ " characters")) ∧
    validateAndSanitizeInput .nonString maxLength = .error "Input must be a string" ∧
    (s.length ≤ chatQueryMaxLength →
      validateAndSanitizeInput (.jstr s) chatQueryMaxLength =
        .ok (String.mk (s.data.filter (fun c => !isControlOtherThanNewlineTabCR c)))) ∧
    genericTextMaxLength = 10000 ∧ chatQueryMaxLength = 50000 := by
  have hfilter : ∀ t : List Char, t.filter (fun c => !isStrippedChar c) =
      t.filter (fun c => !isControlOtherThanNewlineTabCR c) := by
    intro t
    apply List.filter_congr
    intro c _
    rw [isStrippedChar_eq_spec]
  refine ⟨?_, ?_, rfl, ?_, rfl, rfl⟩
  · intro h
    simp only [validateAndSanitizeInput]
    rw [if_neg (by omega), hfilter]
  · intro h
    simp only [validateAndSanitizeInput]
    rw [if_pos (by omega)]
  · intro h
    simp only [validateAndSanitizeInput]
    rw [if_neg (by simp only [chatQueryMaxLength] at h ⊢; omega), hfilter]

theorem C5_amended_witness :
    validateAndSanitizeInput (.jstr "a\x01b") genericTextMaxLength =
      .ok (String.mk ("a\x01b".data.filter (fun c => !isControlOtherThanNewlineTabCR c))) ∧
    validateAndSanitizeInput (.jstr "abc") 2 =
      .error ("Input too long. Maximum length is " ++ toString (2 : Nat) ++ " characters") :=
  ⟨(C5_amended genericTextMaxLength "a\x01b").1 (by decide),
   (C5_amended 2 "abc").2.1 (by decide)⟩

/-- Claim C6: any path whose normalized form contains `..` or `~` is
rejected, whatever the file system says about existence; and a path is
returned only when it is the normalized form, the target exists, and
its size is at most 100 MB. -/
theorem C6_path_validation (normalize : String → String)
    (fileSize : String → Option Nat) (p : String) :
    ((strContains (normalize p) ".." = true ∨ strContains (normalize p) "~" = true) →
      validateAndSanitizeFilePath normalize fileSize (.jstr p) = .error "Invalid file path") ∧
    (∀ q, validateAndSanitizeFilePath normalize fileSize (.jstr p) = .ok q →
      q = normalize p ∧ ∃ size, fileSize (normalize p) = some size ∧
        size ≤ 100 * 1024 * 1024) := by
  constructor
  · intro h
    simp only [validateAndSanitizeFilePath]
    by_cases hp : p = ""
    · rw [if_pos hp]
    · rw [if_neg hp, if_pos (by rcases h with h | h <;> simp [h])]
  · intro q hq
    simp only [validateAndSanitizeFilePath] at hq
    split at hq
    · exact absurd hq (by simp)
    · split at hq
      · exact absurd hq (by simp)
      · split at hq
        · exact absurd hq (by simp)
        · rename_i size heq
          split at hq
          · exact absurd hq (by simp)
          · rename_i hsz
            refine ⟨by injection hq with h; exact h.symm, size, heq, by omega⟩

theorem C6_witness :
    validateAndSanitizeFilePath id (fun _ => none) (.jstr "../secret") =
      .error "Invalid file path" ∧
    ("file.txt" = id "file.txt" ∧ ∃ size, (fun _ => some 5) (id "file.txt") = some size ∧
      size ≤ 100 * 1024 * 1024) :=
  ⟨(C6_path_validation id (fun _ => none) "../secret").1 (Or.inl (by decide)),
   (C6_path_validation id (fun _ => some 5) "file.txt").2 "file.txt" rfl⟩

lemma processRawLine_settled (parseFrame : String → Option ProgressFrame)
    (st : DownloadState) (line : String) :
    (processRawLine parseFrame st line).settled = settledNext parseFrame st.settled line := by
  unfold processRawLine settledNext
  split
  · rfl
  · cases hp : parseFrame line with
    | none => simp only [hp]
    | some f =>
      simp only [hp]
      by_cases ht : isTerminalDownloadFrame f = true
      · rw [if_pos ht, if_pos ht]
        unfold settleDownload
        cases st.settled <;> rfl
      · rw [if_neg ht, if_neg ht]

lemma processStdoutLines_settled_congr (parseFrame : String → Option ProgressFrame)
    (ls : List String) (st1 st2 : DownloadState) (h : st1.settled = st2.settled) :
    (processStdoutLines parseFrame st1 ls).settled =
      (processStdoutLines parseFrame st2 ls).settled := by
  induction ls generalizing st1 st2 with
  | nil => exact h
  | cons l ls ih =>
    simp only [processStdoutLines, List.foldl_cons] at *
    exact ih _ _ (by rw [processRawLine_settled, processRawLine_settled, h])

lemma isTerminalDownloadFrame_iff (f : ProgressFrame) :
    isTerminalDownloadFrame f = true ↔
      (f.progress = some 100 ∨ f.status = some "Cannot be installed" ∨
        f.stage = some "complete") := by
  simp [isTerminalDownloadFrame, or_assoc]

/-- Claim C2 counterexample: a frame with `status = "Cannot be installed"`,
`progress = 0` and `stage = "downloading"` resolves the download promise
even though it has neither `progress == 100` nor `stage == "complete"` —
`main.js:598` also treats that status string as terminal. -/
theorem C2_counterexample :
    (processRawLine (fun _ => some cannotInstallFrame) downloadInit "line").settled =
      some (.resolve cannotInstallFrame) ∧
    cannotInstallFrame.progress ≠ some 100 ∧
    cannotInstallFrame.stage ≠ some "complete" := by
  refine ⟨by decide, by decide, by decide⟩

/-- Claim C2 (amended): a decoded frame resolves the download promise
exactly when `progress == 100`, `status == "Cannot be installed"`, or
`stage == "complete"`; a frame whose only distinction is
`stage == "error"` neither resolves nor rejects (failure is signalled by
the worker's exit code, not by the frame). -/
theorem C2_amended (parseFrame : String → Option ProgressFrame) (st : DownloadState)
    (line : String) (f : ProgressFrame) (hns : st.settled = none)
    (hline : jsTrim line ≠ "") (hparse : parseFrame line = some f) :
    ((processRawLine parseFrame st line).settled = some (.resolve f) ↔
      (f.progress = some 100 ∨ f.status = some "Cannot be installed" ∨
        f.stage = some "complete")) ∧
    (f.stage = some "error" → f.progress ≠ some 100 →
      f.status ≠ some "Cannot be installed" →
      (processRawLine parseFrame st line).settled = none) := by
  have hs : (processRawLine parseFrame st line).settled =
      (if isTerminalDownloadFrame f then some (.resolve f) else none) := by
    rw [processRawLine_settled, hns]
    unfold settledNext
    rw [if_neg hline, hparse]
  constructor
  · rw [hs]
    by_cases ht : isTerminalDownloadFrame f = true
    · rw [if_pos ht]
      exact iff_of_true rfl ((isTerminalDownloadFrame_iff f).mp ht)
    · rw [if_neg ht]
      exact iff_of_false (by simp) (fun hd => ht ((isTerminalDownloadFrame_iff f).mpr hd))
  · intro hstage h100 hcannot
    rw [hs, if_neg ?ht]
    case ht =>
      intro h
      rcases (isTerminalDownloadFrame_iff f).mp h with h1 | h1 | h1
      · exact h100 h1
      · exact hcannot h1
      · rw [hstage] at h1
        exact absurd h1 (by simp)

theorem C2_witness :
    (processRawLine (fun _ => some completeFrame) downloadInit "x").settled =
      some (.resolve completeFrame) :=
  ((C2_amended (fun _ => some completeFrame) downloadInit "x" completeFrame rfl
      (by decide) rfl).1).mpr (Or.inr (Or.inr rfl))

/-- Claim C3 counterexample: line `"A"` decodes to a terminal frame that
resolves the operation, yet the following line `"B"` is still parsed
and its frame is still delivered to the subscriber — the handler never
stops frame processing after resolution. -/
theorem C3_counterexample :
    (processStdoutLines (fun l => if l = "A" then some completeFrame else some midFrame)
        downloadInit ["A", "B"]).sent = [completeFrame, midFrame] ∧
    (processStdoutLines (fun l => if l = "A" then some completeFrame else some midFrame)
        downloadInit ["A"]).settled = some (.resolve completeFrame) := by
  refine ⟨by decide, by decide⟩

/-- Claim C3 (amended): after a terminal frame has resolved the
operation, subsequent lines are still parsed and delivered to the
subscriber; only the settlement itself is unaffected — the first
resolution wins and never changes. -/
theorem C3_amended (parseFrame : String → Option ProgressFrame) (st : DownloadState)
    (line : String) (f : ProgressFrame) (o : Outcome ProgressFrame)
    (hline : jsTrim line ≠ "") (hparse : parseFrame line = some f)
    (hsettled : st.settled = some o) :
    (processRawLine parseFrame st line).sent = st.sent ++ [f] ∧
    (processRawLine parseFrame st line).settled = some o := by
  constructor
  · have h1 : processRawLine parseFrame st line =
        (if isTerminalDownloadFrame f then
          settleDownload { st with sent := st.sent ++ [f] } (.resolve f)
         else { st with sent := st.sent ++ [f] }) := by
      unfold processRawLine
      rw [if_neg hline, hparse]
    rw [h1]
    by_cases ht : isTerminalDownloadFrame f = true
    · rw [if_pos ht]
      unfold settleDownload
      dsimp only
      rw [hsettled]
    · rw [if_neg ht]
  · rw [processRawLine_settled, hsettled]
    unfold settledNext
    rw [if_neg hline, hparse]
    cases ht : isTerminalDownloadFrame f <;> simp [ht]

theorem C3_witness :
    (processRawLine (fun _ => some midFrame)
        { sent := [completeFrame], settled := some (.resolve completeFrame), killed := false }
        "B").sent = [completeFrame, midFrame] ∧
    (processRawLine (fun _ => some midFrame)
        { sent := [completeFrame], settled := some (.resolve completeFrame), killed := false }
        "B").settled = some (.resolve completeFrame) :=
  C3_amended (fun _ => some midFrame)
    { sent := [completeFrame], settled := some (.resolve completeFrame), killed := false }
    "B" midFrame (.resolve completeFrame) (by decide) rfl rfl

/-- Claim C8 counterexample: the line `" "` is non-empty and is not
parseable as a structured record, yet the decoder delivers no synthetic
error frame for it — `line.trim()` filters whitespace-only lines out
before any parse is attempted. -/
theorem C8_counterexample :
    (processRawLine (fun _ => none) downloadInit " ").sent = [] ∧
    (" " : String) ≠ "" := by
  refine ⟨by decide, by decide⟩

/-- Claim C8 (amended): for every line that contains a non-whitespace
character and fails to parse, the decoder delivers exactly one
synthetic `stage: "error"` frame with a diagnostic status in its place
and changes nothing else, and decoding continues: the final settlement
of the stream is the same as if the malformed line had been absent. -/
theorem C8_amended (parseFrame : String → Option ProgressFrame) (st : DownloadState)
    (bad : String) (pre post : List String)
    (hbad : jsTrim bad ≠ "") (hparse : parseFrame bad = none) :
    processRawLine parseFrame st bad = { st with sent := st.sent ++ [syntheticErrorFrame] } ∧
    (processStdoutLines parseFrame st (pre ++ bad :: post)).settled =
      (processStdoutLines parseFrame st (pre ++ post)).settled := by
  have hstep : ∀ st' : DownloadState, processRawLine parseFrame st' bad =
      { st' with sent := st'.sent ++ [syntheticErrorFrame] } := by
    intro st'
    unfold processRawLine
    rw [if_neg hbad, hparse]
  refine ⟨hstep st, ?_⟩
  have h1 : processStdoutLines parseFrame st (pre ++ bad :: post) =
      processStdoutLines parseFrame
        (processRawLine parseFrame (processStdoutLines parseFrame st pre) bad) post := by
    simp [processStdoutLines, List.foldl_append]
  have h2 : processStdoutLines parseFrame st (pre ++ post) =
      processStdoutLines parseFrame (processStdoutLines parseFrame st pre) post := by
    simp [processStdoutLines, List.foldl_append]
  rw [h1, h2]
  apply processStdoutLines_settled_congr
  rw [hstep]

theorem C8_witness :
    processRawLine (fun _ => none) downloadInit "junk" =
      { downloadInit with sent := [syntheticErrorFrame] } ∧
    (processStdoutLines (fun _ => none) downloadInit ["junk"]).settled =
      (processStdoutLines (fun _ => none) downloadInit []).settled :=
  C8_amended (fun _ => none) downloadInit "junk" [] [] (by decide) rfl

lemma concatChunks_append (l : List String) (s : String) :
    concatChunks (l ++ [s]) = concatChunks l ++ s := by
  simp [concatChunks, List.foldl_append]

lemma settleQuery_fields (st : QueryState) (o : Outcome String) :
    (settleQuery st o).fullResponse = st.fullResponse ∧
    (settleQuery st o).sentChunks = st.sentChunks := by
  unfold settleQuery
  cases st.settled <;> exact ⟨rfl, rfl⟩

lemma runQuery_inv (evs : List ProcEvent) (st : QueryState)
    (h : st.fullResponse = concatChunks st.sentChunks) :
    (evs.foldl queryStep st).fullResponse =
      concatChunks (evs.foldl queryStep st).sentChunks := by
  induction evs generalizing st with
  | nil => exact h
  | cons e es ih =>
    rw [List.foldl_cons]
    apply ih
    cases e with
    | stdout t => simp [queryStep, concatChunks_append, h]
    | stderrData m => exact h
    | close c =>
      by_cases hc : c = 0
      · simp only [queryStep, if_pos hc]
        rw [(settleQuery_fields st _).1, (settleQuery_fields st _).2, h]
      · simp only [queryStep, if_neg hc]
        rw [(settleQuery_fields st _).1, (settleQuery_fields st _).2, h]
    | spawnFailed m =>
      simp only [queryStep]
      rw [(settleQuery_fields st _).1, (settleQuery_fields st _).2, h]
    | timeoutFired =>
      simp only [queryStep]
      rw [(settleQuery_fields _ _).1, (settleQuery_fields _ _).2]
      exact h

lemma settleQuery_reject_noResolve (st : QueryState) (msg : String)
    (h : ∀ v, st.settled ≠ some (.resolve v)) :
    ∀ v, (settleQuery st (.reject msg)).settled ≠ some (.resolve v) := by
  intro v
  unfold settleQuery
  cases hs : st.settled with
  | some o => exact h v
  | none => simp

lemma queryStep_noResolve (st : QueryState) (e : ProcEvent)
    (hc : isCloseEvent e = false) (h : ∀ v, st.settled ≠ some (.resolve v)) :
    ∀ v, (queryStep st e).settled ≠ some (.resolve v) := by
  cases e with
  | stdout t => simpa [queryStep] using h
  | stderrData m => simpa [queryStep] using h
  | close c => simp [isCloseEvent] at hc
  | spawnFailed m => exact settleQuery_reject_noResolve st _ h
  | timeoutFired => exact settleQuery_reject_noResolve { st with killed := true } _ h

lemma foldl_queryStep_noResolve (evs : List ProcEvent) (st : QueryState)
    (hevs : ∀ e ∈ evs, isCloseEvent e = false)
    (h : ∀ v, st.settled ≠ some (.resolve v)) :
    ∀ v, (evs.foldl queryStep st).settled ≠ some (.resolve v) := by
  induction evs generalizing st with
  | nil => exact h
  | cons e es ih =>
    rw [List.foldl_cons]
    exact ih _ (fun e' he' => hevs e' (List.mem_cons_of_mem _ he'))
      (queryStep_noResolve st e (hevs e (List.mem_cons_self _ _)) h)

lemma settleQuery_resolve_cases (st : QueryState) (x : String) :
    (settleQuery st (.resolve x)).settled = st.settled ∨
      (st.settled = none ∧ (settleQuery st (.resolve x)).settled = some (.resolve x)) := by
  unfold settleQuery
  cases hs : st.settled with
  | some o => left; exact hs
  | none => right; exact ⟨rfl, rfl⟩

/-- Claim C7: if a chat operation's trace ends with the process's close
event (no event follows a close) and the promise was fulfilled, then the
resolved value is exactly the concatenation, in arrival order, of the
chunks that were forwarded to the subscriber. -/
theorem C7_chat_roundtrip (evs : List ProcEvent) (v : String)
    (hwf : ∀ e ∈ evs.dropLast, isCloseEvent e = false)
    (hres : (runQuery evs).settled = some (.resolve v)) :
    v = concatChunks (runQuery evs).sentChunks := by
  rcases List.eq_nil_or_concat evs with rfl | ⟨body, e, rfl⟩
  · exact absurd hres (by simp [runQuery, queryInit])
  · have hbody : ∀ e' ∈ body, isCloseEvent e' = false := by
      intro e' he'
      apply hwf
      simp only [List.concat_eq_append, List.dropLast_concat]
      exact he'
    have hnr : ∀ w, (body.foldl queryStep queryInit).settled ≠ some (.resolve w) :=
      foldl_queryStep_noResolve body queryInit hbody (by simp [queryInit])
    have hinv : (body.foldl queryStep queryInit).fullResponse =
        concatChunks (body.foldl queryStep queryInit).sentChunks :=
      runQuery_inv body queryInit rfl
    have hrun : runQuery (body.concat e) = queryStep (body.foldl queryStep queryInit) e := by
      simp [runQuery, List.concat_eq_append, List.foldl_append]
    rw [hrun] at hres ⊢
    set st := body.foldl queryStep queryInit with hst
    cases e with
    | stdout t => exact absurd hres (queryStep_noResolve st (.stdout t) rfl hnr v)
    | stderrData m => exact absurd hres (queryStep_noResolve st (.stderrData m) rfl hnr v)
    | spawnFailed m => exact absurd hres (queryStep_noResolve st (.spawnFailed m) rfl hnr v)
    | timeoutFired => exact absurd hres (queryStep_noResolve st .timeoutFired rfl hnr v)
    | close c =>
      by_cases hc : c = 0
      · subst hc
        have hq : queryStep st (.close 0) = settleQuery st (.resolve st.fullResponse) := by
          simp [queryStep]
        rw [hq] at hres ⊢
        rcases settleQuery_resolve_cases st st.fullResponse with h1 | ⟨h0, h1⟩
        · rw [h1] at hres
          exact absurd hres (hnr v)
        · rw [h1] at hres
          have hv : st.fullResponse = v := by
            injection hres with h2
            injection h2
          rw [(settleQuery_fields st _).2, ← hinv, hv]
      · have hq : queryStep st (.close c) =
            settleQuery st (.reject ("Python process exited with code " ++ toString c)) := by
          simp [queryStep, hc]
        rw [hq] at hres
        exact absurd hres (settleQuery_reject_noResolve st _ hnr v)

theorem C7_witness :
    (runQuery [.stdout "Hi", .stdout " there", .close 0]).settled =
      some (.resolve "Hi there") ∧
    "Hi there" = concatChunks (runQuery [.stdout "Hi", .stdout " there", .close 0]).sentChunks :=
  ⟨by decide,
   C7_chat_roundtrip [.stdout "Hi", .stdout " there", .close 0] "Hi there"
     (by decide) (by decide)⟩

lemma settleBuffer_resolve_noReject (st : BufferState) (v : JVal)
    (h : ∀ m, st.settled ≠ some (.reject m)) :
    ∀ m, (settleBuffer st (.resolve v)).settled ≠ some (.reject m) := by
  intro m
  unfold settleBuffer
  cases hs : st.settled with
  | some o => exact h m
  | none => simp

lemma bufferedHandlerStep_noReject (closeResult : Int → String → JVal)
    (timeoutResult : JVal) (spawnFailResult : String → JVal) (st : BufferState)
    (e : ProcEvent) (h : ∀ m, st.settled ≠ some (.reject m)) :
    ∀ m, (bufferedHandlerStep closeResult timeoutResult spawnFailResult st e).settled ≠
      some (.reject m) := by
  cases e with
  | stdout s => simpa [bufferedHandlerStep] using h
  | stderrData s => simpa [bufferedHandlerStep] using h
  | close c => exact settleBuffer_resolve_noReject st _ h
  | spawnFailed msg => exact settleBuffer_resolve_noReject st _ h
  | timeoutFired => exact settleBuffer_resolve_noReject { st with killed := true } _ h

lemma foldl_buffered_noReject (closeResult : Int → String → JVal)
    (timeoutResult : JVal) (spawnFailResult : String → JVal) (evs : List ProcEvent)
    (st : BufferState) (h : ∀ m, st.settled ≠ some (.reject m)) :
    ∀ m, (evs.foldl (bufferedHandlerStep closeResult timeoutResult spawnFailResult) st).settled ≠
      some (.reject m) := by
  induction evs generalizing st with
  | nil => exact h
  | cons e es ih =>
    rw [List.foldl_cons]
    exact ih _ (bufferedHandlerStep_noReject _ _ _ st e h)

/-- Claim C10: `get-ai-options`, `get-model-info` and `delete-model`
never reject — every spawn error, timeout, empty output and unparseable
output resolves a fallback value (`["No models found"]`, `[]`, or a
`{ status: "error", message }` object, respectively). -/
theorem C10_metadata_never_reject (parseJson : String → Option JVal) (mn : JSInput)
    (evs : List ProcEvent) (s : String) (c : Int) (emsg : String) :
    (∀ m, (runGetAiOptions parseJson evs).settled ≠ some (.reject m)) ∧
    (∀ m, (runGetModelInfo parseJson evs).settled ≠ some (.reject m)) ∧
    (∀ m, (runDeleteModel parseJson mn evs).settled ≠ some (.reject m)) ∧
    (runGetAiOptions parseJson [.timeoutFired]).settled = some (.resolve noModelsFallback) ∧
    (runGetAiOptions parseJson [.spawnFailed emsg]).settled = some (.resolve noModelsFallback) ∧
    (runGetAiOptions parseJson [.close c]).settled = some (.resolve noModelsFallback) ∧
    (jsTrim s ≠ "" → parseJson s = none →
      getAiOptionsCloseResult parseJson c s = noModelsFallback) ∧
    (runGetModelInfo parseJson [.timeoutFired]).settled = some (.resolve (.jarr [])) ∧
    (runGetModelInfo parseJson [.spawnFailed emsg]).settled = some (.resolve (.jarr [])) ∧
    (runGetModelInfo parseJson [.close c]).settled = some (.resolve (.jarr [])) ∧
    (jsTrim s ≠ "" → parseJson s = none →
      getModelInfoCloseResult parseJson c s = .jarr []) ∧
    (∀ vmsg, validateModelName mn = .error vmsg →
      (runDeleteModel parseJson mn evs).settled = some (.resolve (deleteErrorResult vmsg))) ∧
    (∀ ok, validateModelName mn = .ok ok →
      (runDeleteModel parseJson mn [.timeoutFired]).settled =
        some (.resolve (deleteErrorResult "Delete operation timed out")) ∧
      (runDeleteModel parseJson mn [.spawnFailed emsg]).settled =
        some (.resolve (deleteErrorResult "Failed to start delete operation")) ∧
      (runDeleteModel parseJson mn [.close c]).settled =
        some (.resolve (deleteErrorResult "No response from delete operation"))) ∧
    (jsTrim s ≠ "" → parseJson s = none →
      deleteModelCloseResult parseJson c s = deleteErrorResult "Failed to parse delete result") := by
  refine ⟨foldl_buffered_noReject _ _ _ evs bufferInit (by simp [bufferInit]),
    foldl_buffered_noReject _ _ _ evs bufferInit (by simp [bufferInit]),
    ?_, rfl, rfl, rfl, ?_, rfl, rfl, rfl, ?_, ?_, ?_, ?_⟩
  · cases hv : validateModelName mn with
    | error msg =>
      intro m
      unfold runDeleteModel
      rw [hv]
      simp [settleBuffer, bufferInit]
    | ok o =>
      intro m
      unfold runDeleteModel
      rw [hv]
      exact foldl_buffered_noReject _ _ _ evs bufferInit (by simp [bufferInit]) m
  · intro h1 h2
    unfold getAiOptionsCloseResult
    rw [if_neg h1, h2]
  · intro h1 h2
    unfold getModelInfoCloseResult
    rw [if_neg h1, h2]
  · intro vmsg hv
    unfold runDeleteModel
    rw [hv]
    rfl
  · intro ok hok
    unfold runDeleteModel
    rw [hok]
    exact ⟨rfl, rfl, rfl⟩
  · intro h1 h2
    unfold deleteModelCloseResult
    rw [if_neg h1, h2]

theorem C10_witness :
    (runGetAiOptions (fun _ => none) [.stdout "junk", .close 0]).settled =
      some (.resolve noModelsFallback) ∧
    (runDeleteModel (fun _ => none) (.jstr "llama3") [.timeoutFired]).settled =
      some (.resolve (deleteErrorResult "Delete operation timed out")) ∧
    (runDeleteModel (fun _ => none) (.jstr "bad name!") []).settled =
      some (.resolve (deleteErrorResult "Invalid model name format")) :=
  ⟨rfl,
   ((C10_metadata_never_reject (fun _ => none) (.jstr "llama3") [] "x" 0 "e").2.2.2.2.2.2.2.2.2.2.2.2.1
      (jsTrim "llama3") rfl).1,
   (C10_metadata_never_reject (fun _ => none) (.jstr "bad name!") [] "x" 0 "e").2.2.2.2.2.2.2.2.2.2.2.1
      "Invalid model name format" rfl⟩

/-- Claim C4 counterexample: when the `get-ai-options` timer fires, the
worker is killed but the operation resolves with the fallback value
`["No models found"]` — a successful resolution, not a rejection
distinguishable as a timeout. -/
theorem C4_counterexample :
    (runGetAiOptions (fun _ => none) [.timeoutFired]).settled =
      some (.resolve noModelsFallback) ∧
    (runGetAiOptions (fun _ => none) [.timeoutFired]).killed = true :=
  ⟨rfl, rfl⟩

/-- Claim C4 (amended): when the deadline machinery fires against a
still-unsettled operation, every one of the nine spawning handlers
kills its worker, but only `submit-ai-query`, `download-model`,
`check-system-requirements`, `start-fine-tuning` (whose 10-minute
deadline is extended by a two-minute graduated warning cascade before
the kill) and `get-dashboard-data` reject with timeout-specific errors;
`get-ai-options`, `get-model-info`, `delete-model` and
`export-fine-tuned-model` instead resolve fallback values, so their
timeout is not observable as a rejection. -/
theorem C4_amended (parseFrame : String → Option ProgressFrame)
    (parseJson : String → Option JVal) (parseErrMsg : String → String)
    (qst : QueryState) (dst : DownloadState) (bst : BufferState)
    (hq : qst.settled = none) (hd : dst.settled = none)
    (hb : bst.settled = none) :
    ((queryStep qst .timeoutFired).killed = true ∧
      (queryStep qst .timeoutFired).settled = some (.reject
        "Request timeout - process took too long. Try asking a more specific question or breaking it into smaller parts.")) ∧
    ((downloadStep parseFrame dst .timeoutFired).killed = true ∧
      (downloadStep parseFrame dst .timeoutFired).settled = some (.reject
        "Download timeout - process took too long")) ∧
    ((checkSystemRequirementsStep parseJson parseErrMsg bst .timeoutFired).killed = true ∧
      (checkSystemRequirementsStep parseJson parseErrMsg bst .timeoutFired).settled =
        some (.reject "System requirements check timeout")) ∧
    ((startFineTuningStep parseJson bst .timeoutFired).killed = true ∧
      (startFineTuningStep parseJson bst .timeoutFired).settled = some (.reject
        "Fine-tuning start timeout - model preparation is taking longer than expected. Please try again or check your internet connection.")) ∧
    ((getDashboardDataStep parseJson bst .timeoutFired).killed = true ∧
      (getDashboardDataStep parseJson bst .timeoutFired).settled =
        some (.reject "Dashboard data timeout")) ∧
    ((getAiOptionsStep parseJson bst .timeoutFired).killed = true ∧
      (getAiOptionsStep parseJson bst .timeoutFired).settled =
        some (.resolve noModelsFallback)) ∧
    ((getModelInfoStep parseJson bst .timeoutFired).killed = true ∧
      (getModelInfoStep parseJson bst .timeoutFired).settled =
        some (.resolve (.jarr []))) ∧
    ((deleteModelStep parseJson bst .timeoutFired).killed = true ∧
      (deleteModelStep parseJson bst .timeoutFired).settled =
        some (.resolve (deleteErrorResult "Delete operation timed out"))) ∧
    ((exportModelStep parseJson bst .timeoutFired).killed = true ∧
      (exportModelStep parseJson bst .timeoutFired).settled =
        some (.resolve (exportErrorResult "Export timeout"))) := by
  refine ⟨⟨?_, ?_⟩, ⟨?_, ?_⟩, ⟨?_, ?_⟩, ⟨?_, ?_⟩, ⟨?_, ?_⟩, ⟨?_, ?_⟩, ⟨?_, ?_⟩,
      ⟨?_, ?_⟩, ⟨?_, ?_⟩⟩ <;>
    simp [queryStep, settleQuery, hq, downloadStep, settleDownload, hd,
      checkSystemRequirementsStep, startFineTuningStep, getDashboardDataStep,
      getAiOptionsStep, getModelInfoStep, deleteModelStep, exportModelStep,
      bufferedHandlerStep, settleBuffer, hb]

theorem C4_witness :
    (queryStep queryInit .timeoutFired).settled = some (.reject
      "Request timeout - process took too long. Try asking a more specific question or breaking it into smaller parts.") ∧
    (startFineTuningStep (fun _ => none) bufferInit .timeoutFired).settled = some (.reject
      "Fine-tuning start timeout - model preparation is taking longer than expected. Please try again or check your internet connection.") ∧
    (getAiOptionsStep (fun _ => none) bufferInit .timeoutFired).settled =
      some (.resolve noModelsFallback) :=
  ⟨(C4_amended (fun _ => none) (fun _ => none) (fun _ => "") queryInit downloadInit
      bufferInit rfl rfl rfl).1.2,
   (C4_amended (fun _ => none) (fun _ => none) (fun _ => "") queryInit downloadInit
      bufferInit rfl rfl rfl).2.2.2.1.2,
   (C4_amended (fun _ => none) (fun _ => none) (fun _ => "") queryInit downloadInit
      bufferInit rfl rfl rfl).2.2.2.2.2.1.2⟩

/-- Claim C9: a non-zero exit of the fine-tuning starter rejects with a
message selected by the exit code — the reserved codes 1, 2, 3 and 4
map to four distinct categories (base model unavailable, training-data
validation failed, system requirements not met, network error) and any
other non-zero code falls back to the generic message; a zero exit with
non-blank parseable output resolves the parsed result. -/
theorem C9_exit_code_mapping (parseJson : String → Option JVal) (code : Int)
    (data : String) :
    (code ≠ 0 → ∃ msg, fineTuningCloseResult parseJson code data = .reject msg ∧
      (code = 1 → msg = "Model preparation failed - check if the base model is available in Ollama") ∧
      (code = 2 → msg = "Training data validation failed - check your uploaded files") ∧
      (code = 3 → msg = "System requirements not met - insufficient RAM or storage") ∧
      (code = 4 → msg = "Network error - check your internet connection") ∧
      (code ≠ 1 → code ≠ 2 → code ≠ 3 → code ≠ 4 → msg = "Fine-tuning start failed")) ∧
    (∀ result, code = 0 → jsTrim data ≠ "" → parseJson data = some result →
      fineTuningCloseResult parseJson code data = .resolve result) ∧
    ("Model preparation failed - check if the base model is available in Ollama" ≠
        "Training data validation failed - check your uploaded files" ∧
      "Model preparation failed - check if the base model is available in Ollama" ≠
        "System requirements not met - insufficient RAM or storage" ∧
      "Model preparation failed - check if the base model is available in Ollama" ≠
        "Network error - check your internet connection" ∧
      "Training data validation failed - check your uploaded files" ≠
        "System requirements not met - insufficient RAM or storage" ∧
      "Training data validation failed - check your uploaded files" ≠
        "Network error - check your internet connection" ∧
      "System requirements not met - insufficient RAM or storage" ≠
        "Network error - check your internet connection") := by
  refine ⟨?_, ?_, by decide, by decide, by decide, by decide, by decide, by decide⟩
  · intro hc
    unfold fineTuningCloseResult
    rw [if_neg (by intro h; exact hc h.1)]
    refine ⟨_, rfl, ?_, ?_, ?_, ?_, ?_⟩
    · intro h; rw [if_pos h]
    · intro h; rw [if_neg (by omega), if_pos h]
    · intro h; rw [if_neg (by omega), if_neg (by omega), if_pos h]
    · intro h; rw [if_neg (by omega), if_neg (by omega), if_neg (by omega), if_pos h]
    · intro h1 h2 h3 h4
      rw [if_neg h1, if_neg h2, if_neg h3, if_neg h4]
  · intro result hc hd hp
    unfold fineTuningCloseResult
    rw [if_pos ⟨hc, hd⟩, hp]

theorem C9_witness :
    fineTuningCloseResult (fun _ => some (JVal.jstr "started")) 0 "x" =
      .resolve (JVal.jstr "started") ∧
    fineTuningCloseResult (fun _ => none) 2 "" =
      .reject "Training data validation failed - check your uploaded files" ∧
    fineTuningCloseResult (fun _ => none) 7 "" = .reject "Fine-tuning start failed" := by
  refine ⟨(C9_exit_code_mapping (fun _ => some (JVal.jstr "started")) 0 "x").2.1
      (JVal.jstr "started") rfl (by decide) rfl, ?_, ?_⟩
  · obtain ⟨msg, hm, _, h2, _⟩ := (C9_exit_code_mapping (fun _ => none) 2 "").1 (by decide)
    rw [hm, h2 rfl]
  · obtain ⟨msg, hm, _, _, _, _, h5⟩ := (C9_exit_code_mapping (fun _ => none) 7 "").1 (by decide)
    rw [hm, h5 (by decide) (by decide) (by decide) (by decide)]

/-- Claim C1 (code bug): the `export-fine-tuned-model` and
`start-fine-tuning` handlers spawn their workers without passing the
payload through any validator — the model name `"bad model!"` is
rejected by `validateModelName`, yet both handlers interpolate it
verbatim into the Python program text handed to the spawned process. -/
theorem C1_unvalidated_spawn :
    validateModelName (.jstr "bad model!") = .error "Invalid model name format" ∧
    exportFineTunedModelSpawnArgs "/app/resources/src/backend" "bad model!" =
      ["-c", exportPythonCode "/app/resources/src/backend" "bad model!"] ∧
    strContains (exportPythonCode "/app/resources/src/backend" "bad model!")
      "bad model!" = true ∧
    startFineTuningSpawnArgs "/app/resources/src/backend"
        { baseModel := "bad model!", modelName := "m", learningRate := 1,
          epochs := 3, batchSize := 4, files := [] } =
      ["-c", startFineTuningPythonCode "/app/resources/src/backend"
        { baseModel := "bad model!", modelName := "m", learningRate := 1,
          epochs := 3, batchSize := 4, files := [] }] ∧
    strContains (startFineTuningPythonCode "/app/resources/src/backend"
        { baseModel := "bad model!", modelName := "m", learningRate := 1,
          epochs := 3, batchSize := 4, files := [] }) "bad model!" = true := by
  refine ⟨rfl, rfl, by decide, rfl, by decide⟩

end ACE
